import Mathlib

/-
Shallow embedding of `src/teller-providers/src/providers/flyio_provider.rs`:
a secret-provider adapter that shells out to the `fly` command-line tool to
list, set and unset application secrets.

The external world (the behaviour of the spawned `fly` process and of the
library functions `str::from_utf8` and `serde_json::from_str`) is modelled by
an explicit environment record `Env`.  Each adapter operation additionally
returns the list of argument vectors it invoked the `fly` binary with, so
that statements about which commands are run (and how often) can be made.
-/

set_option autoImplicit false

namespace Flyio

/-- Kind of a std io Error.  Only `other` is ever constructed by the adapter
itself; the remaining kinds stand for kinds a failed spawn may carry. -/
inductive IoErrorKind where
  | other
  | notFound
  | permissionDenied
deriving DecidableEq

/-- Model of a std io Error: an error kind together with a message. -/
structure IoError where
  kind : IoErrorKind
  msg : String
deriving DecidableEq

/-- Model of std str Utf8Error (its payload is never inspected by the
adapter; the position of the first invalid byte is kept for fidelity). -/
structure Utf8Error where
  valid_up_to : Nat
deriving DecidableEq

/-- Model of a serde_json parse error (its contents are never inspected by
the adapter, which discards it). -/
structure JsonError where
  msg : String
deriving DecidableEq

/-- Model of serde_json Value: a JSON document. -/
inductive Value where
  | null
  | bool (b : Bool)
  | num (n : Int)
  | str (s : String)
  | arr (elems : List Value)
  | obj (entries : List (String × Value))

/-- serde_json Value::get indexed by a string key: returns the value at the
key when the document is an object containing it, and None otherwise. -/
def Value.getKey : Value → String → Option Value
  | .obj entries, k => entries.lookup k
  | _, _ => none

/-- serde_json Value::as_str: Some exactly on JSON strings. -/
def Value.as_str : Value → Option String
  | .str s => some s
  | _ => none

/-- Outcome of spawning the external fly process via Command::output():
either the spawn itself fails with an io error, or the process runs to
completion with an exit status and captured standard output (raw bytes). -/
inductive SpawnOutcome where
  | spawnErr (e : IoError)
  | ran (statusSuccess : Bool) (stdout : List Nat)
deriving DecidableEq

/-- External environment: the behaviour of the fly binary as a function of
the argument vector, and the library functions the adapter calls (UTF-8
decoding of raw bytes, JSON parsing of a string). -/
structure Env where
  runFly : List String → SpawnOutcome
  utf8Decode : List Nat → Except Utf8Error String
  jsonParse : String → Except JsonError Value

/-- The error enum FlyIoError of the adapter, with its five variants. -/
inductive FlyIoError where
  | CommandError (e : IoError)
  | SecretNotFound (name : String)
  | SecretNotSet (name : String)
  | SecretNotDeleted (name : String)
  | Utf8Error (e : Flyio.Utf8Error)
deriving DecidableEq

/-- FlyIoProvider is a field-less struct. -/
structure FlyIoProvider where

/-- FlyIoProvider::new constructs the (field-less) provider. -/
def FlyIoProvider.new : FlyIoProvider := {}

/-- Embedding of execute_fly_command: spawn `fly` with the given arguments;
a spawn failure becomes CommandError, a non-success exit status becomes
CommandError with a fresh "fly command failed" io error, invalid UTF-8
standard output becomes Utf8Error, and otherwise the decoded standard
output is returned.  The second component records the argument vectors the
fly binary was invoked with (exactly one invocation here). -/
def execute_fly_command (env : Env) (args : List String) :
    Except FlyIoError String × List (List String) :=
  let r : Except FlyIoError String :=
    match env.runFly args with
    | .spawnErr e => .error (.CommandError e)
    | .ran statusSuccess stdout =>
      if !statusSuccess then
        .error (.CommandError ⟨IoErrorKind.other, "fly command failed"⟩)
      else
        match env.utf8Decode stdout with
        | .error e => .error (.Utf8Error e)
        | .ok s => .ok s
  (r, [args])

/-- Embedding of get: run `fly secrets list --json`, propagate any failure of
execute_fly_command unchanged, map a JSON parse failure to
SecretNotFound(name), and otherwise look the name up in the parsed document:
a present value is returned via as_str with empty-string default, an absent
key yields SecretNotFound(name). -/
def FlyIoProvider.get (_self : FlyIoProvider) (env : Env) (secret_name : String) :
    Except FlyIoError String × List (List String) :=
  let er := execute_fly_command env ["secrets", "list", "--json"]
  ((match er.1 with
    | .error e => .error e
    | .ok output =>
      match env.jsonParse output with
      | .error _ => .error (.SecretNotFound secret_name)
      | .ok secrets =>
        match secrets.getKey secret_name with
        | some secret_value => .ok ((secret_value.as_str).getD "")
        | none => .error (.SecretNotFound secret_name)),
   er.2)

/-- Embedding of put: run `fly secrets set name=value`; success of
execute_fly_command yields Ok(()), any failure yields SecretNotSet(name). -/
def FlyIoProvider.put (_self : FlyIoProvider) (env : Env)
    (secret_name secret_value : String) :
    Except FlyIoError Unit × List (List String) :=
  let result := execute_fly_command env
      ["secrets", "set", secret_name ++ "=" ++ secret_value]
  ((match result.1 with
    | .ok _ => .ok ()
    | .error _ => .error (.SecretNotSet secret_name)),
   result.2)

/-- Embedding of delete: run `fly secrets unset name`; success of
execute_fly_command yields Ok(()), any failure yields SecretNotDeleted(name). -/
def FlyIoProvider.delete (_self : FlyIoProvider) (env : Env) (secret_name : String) :
    Except FlyIoError Unit × List (List String) :=
  let result := execute_fly_command env ["secrets", "unset", secret_name]
  ((match result.1 with
    | .ok _ => .ok ()
    | .error _ => .error (.SecretNotDeleted secret_name)),
   result.2)

/-- A call to one of the three provider operations, with its inputs. -/
inductive OpCall where
  | getOp (name : String)
  | putOp (name : String) (value : String)
  | delOp (name : String)

/-- The result of one provider operation (get returns a string, put and
delete return unit). -/
inductive OpResult where
  | gotStr (r : Except FlyIoError String)
  | gotUnit (r : Except FlyIoError Unit)

/-- The argument vector an operation passes to the fly binary. -/
def OpCall.argv : OpCall → List String
  | .getOp _ => ["secrets", "list", "--json"]
  | .putOp n v => ["secrets", "set", n ++ "=" ++ v]
  | .delOp n => ["secrets", "unset", n]

/-- Dispatch one operation call on a provider in an environment. -/
def runOp (p : FlyIoProvider) (env : Env) : OpCall → OpResult
  | .getOp n => .gotStr (p.get env n).1
  | .putOp n v => .gotUnit (p.put env n v).1
  | .delOp n => .gotUnit (p.delete env n).1

/-- A run: a sequence of operation calls, each performed against the
external outcome (environment) observed at that step, on one provider. -/
def runHistory (p : FlyIoProvider) (steps : List (OpCall × Env)) : List OpResult :=
  steps.map (fun s => runOp p s.2 s.1)

/-- The three error kinds named by the design document: command-execution
failure, secret-not-found, and value-decoding failure. -/
def threeKinds : FlyIoError → Bool
  | .CommandError _ => true
  | .SecretNotFound _ => true
  | .Utf8Error _ => true
  | _ => false

/-! Concrete environments used to instantiate the theorems below. -/

/-- Environment in which the fly process always runs but exits with a
non-success status. -/
def envCmdFail : Env :=
  ⟨fun _ => .ran false [], fun _ => .ok "", fun _ => .error ⟨"unused"⟩⟩

/-- Environment in which spawning the fly process always fails. -/
def envSpawnFail : Env :=
  ⟨fun _ => .spawnErr ⟨.other, "spawn failed"⟩, fun _ => .ok "",
   fun _ => .error ⟨"unused"⟩⟩

/-- Environment in which the fly process succeeds and its output parses to
the object mapping key A to the JSON string v. -/
def envObjStr : Env :=
  ⟨fun _ => .ran true [], fun _ => .ok "payload",
   fun _ => .ok (.obj [("A", .str "v")])⟩

/-- Environment in which the fly process succeeds and its output parses to
the object mapping key A to the JSON number 42 (not a string). -/
def envObjNum : Env :=
  ⟨fun _ => .ran true [], fun _ => .ok "payload",
   fun _ => .ok (.obj [("A", .num 42)])⟩

/-- Environment in which the fly process succeeds but its output does not
parse as JSON. -/
def envBadJson : Env :=
  ⟨fun _ => .ran true [], fun _ => .ok "notjson",
   fun _ => .error ⟨"expected value"⟩⟩

/-- Environment in which the fly process succeeds but its standard output is
not valid UTF-8. -/
def envBadUtf8 : Env :=
  ⟨fun _ => .ran true [255], fun _ => .error ⟨0⟩, fun _ => .error ⟨"unused"⟩⟩

/-! Theorems settling the claims. -/

/-- C4: each operation invokes the external command-line tool with the fixed
argument pattern: get passes exactly ["secrets", "list", "--json"], put
passes exactly ["secrets", "set", name ++ "=" ++ value], and delete passes
exactly ["secrets", "unset", name]; each passes nothing else. -/
theorem C4_fixed_argument_patterns (p : FlyIoProvider) (env : Env) (n v : String) :
    (p.get env n).2 = [["secrets", "list", "--json"]]
    ∧ (p.put env n v).2 = [["secrets", "set", n ++ "=" ++ v]]
    ∧ (p.delete env n).2 = [["secrets", "unset", n]] :=
  ⟨rfl, rfl, rfl⟩

/-- C5: put(name, value) succeeds exactly when the external set command is
spawned successfully, exits with a success status, and its standard output
decodes as UTF-8; delete(name) succeeds exactly when the external unset
command does; otherwise each returns an error. -/
theorem C5_put_delete_success_iff (p : FlyIoProvider) (env : Env) (n v : String) :
    ((p.put env n v).1 = .ok () ↔
      ∃ out, env.runFly ["secrets", "set", n ++ "=" ++ v] = .ran true out
        ∧ ∃ s, env.utf8Decode out = .ok s)
    ∧ ((p.delete env n).1 = .ok () ↔
      ∃ out, env.runFly ["secrets", "unset", n] = .ran true out
        ∧ ∃ s, env.utf8Decode out = .ok s) := by
  constructor
  · unfold FlyIoProvider.put execute_fly_command
    cases hr : env.runFly ["secrets", "set", n ++ "=" ++ v] with
    | spawnErr e => simp [hr]
    | ran ok out =>
      cases ok with
      | false => simp [hr]
      | true => cases hu : env.utf8Decode out <;> simp [hr, hu]
  · unfold FlyIoProvider.delete execute_fly_command
    cases hr : env.runFly ["secrets", "unset", n] with
    | spawnErr e => simp [hr]
    | ran ok out =>
      cases ok with
      | false => simp [hr]
      | true => cases hu : env.utf8Decode out <;> simp [hr, hu]

/-- C10: whenever the underlying command invocation fails in put, for any
reason, the error returned is SecretNotSet(name); in delete it is
SecretNotDeleted(name); the original cause is discarded in both. -/
theorem C10_put_delete_discard_cause (p : FlyIoProvider) (env : Env) (n v : String) :
    (∀ e, (execute_fly_command env ["secrets", "set", n ++ "=" ++ v]).1 = .error e →
      (p.put env n v).1 = .error (.SecretNotSet n))
    ∧ (∀ e, (execute_fly_command env ["secrets", "unset", n]).1 = .error e →
      (p.delete env n).1 = .error (.SecretNotDeleted n)) := by
  constructor
  · intro e h
    simp [FlyIoProvider.put, h]
  · intro e h
    simp [FlyIoProvider.delete, h]

/-- Witness for C10 at a concrete environment in which the command exits
with a non-success status. -/
theorem C10_put_delete_discard_cause_witness :
    (FlyIoProvider.new.put envCmdFail "A" "B").1 = .error (.SecretNotSet "A")
    ∧ (FlyIoProvider.new.delete envCmdFail "A").1 = .error (.SecretNotDeleted "A") :=
  ⟨(C10_put_delete_discard_cause FlyIoProvider.new envCmdFail "A" "B").1
      (.CommandError ⟨.other, "fly command failed"⟩) rfl,
   (C10_put_delete_discard_cause FlyIoProvider.new envCmdFail "A" "B").2
      (.CommandError ⟨.other, "fly command failed"⟩) rfl⟩

/-- Helper: every error produced by execute_fly_command is a
command-execution or UTF-8 decoding failure, hence one of the three kinds. -/
lemma execute_fly_command_error_kinds (env : Env) (args : List String)
    (e : FlyIoError) (h : (execute_fly_command env args).1 = .error e) :
    threeKinds e = true := by
  simp only [execute_fly_command] at h
  cases hr : env.runFly args with
  | spawnErr e2 =>
    simp [hr] at h
    simp [← h, threeKinds]
  | ran ok out =>
    cases ok with
    | false =>
      simp [hr] at h
      simp [← h, threeKinds]
    | true =>
      cases hu : env.utf8Decode out with
      | error u =>
        simp [hr, hu] at h
        simp [← h, threeKinds]
      | ok s =>
        simp [hr, hu] at h

/-- Helper: get propagates any error of execute_fly_command unchanged. -/
lemma get_propagates_execute_error (p : FlyIoProvider) (env : Env)
    (n : String) (e : FlyIoError)
    (h : (execute_fly_command env ["secrets", "list", "--json"]).1 = .error e) :
    (p.get env n).1 = .error e := by
  simp [FlyIoProvider.get, h]

/-- C1 counterexample: put can return the error SecretNotSet, which is none
of the three kinds (command-execution, secret-not-found, value-decoding), so
not every error returned by get, put or delete is one of the three kinds. -/
theorem C1_counterexample :
    (FlyIoProvider.new.put envCmdFail "A" "B").1 = .error (.SecretNotSet "A")
    ∧ threeKinds (.SecretNotSet "A") = false :=
  ⟨rfl, rfl⟩

/-- C1 amended: the error enum has five variants; every error returned by
get is one of the three kinds (command-execution, secret-not-found, or
value-decoding), while every error returned by put is SecretNotSet(name)
and every error returned by delete is SecretNotDeleted(name). -/
theorem C1_error_kinds_amended (p : FlyIoProvider) (env : Env) (n v : String) :
    (∀ e, (p.get env n).1 = .error e → threeKinds e = true)
    ∧ (∀ e, (p.put env n v).1 = .error e → e = .SecretNotSet n)
    ∧ (∀ e, (p.delete env n).1 = .error e → e = .SecretNotDeleted n) := by
  refine ⟨?_, ?_, ?_⟩
  · intro e h
    simp only [FlyIoProvider.get] at h
    cases hx : (execute_fly_command env ["secrets", "list", "--json"]).1 with
    | error e2 =>
      simp [hx] at h
      exact h ▸ execute_fly_command_error_kinds env _ e2 hx
    | ok s =>
      simp [hx] at h
      cases hj : env.jsonParse s with
      | error je =>
        simp [hj] at h
        simp [← h, threeKinds]
      | ok val =>
        simp [hj] at h
        cases hk : val.getKey n with
        | some w =>
          simp [hk] at h
        | none =>
          simp [hk] at h
          simp [← h, threeKinds]
  · intro e h
    simp only [FlyIoProvider.put] at h
    cases hx : (execute_fly_command env
        ["secrets", "set", n ++ "=" ++ v]).1 with
    | error e2 =>
      simp [hx] at h
      exact h.symm
    | ok s =>
      simp [hx] at h
  · intro e h
    simp only [FlyIoProvider.delete] at h
    cases hx : (execute_fly_command env ["secrets", "unset", n]).1 with
    | error e2 =>
      simp [hx] at h
      exact h.symm
    | ok s =>
      simp [hx] at h

/-- Witness for C1 amended: each conjunct applied at a concrete failing
environment. -/
theorem C1_error_kinds_amended_witness :
    threeKinds (.CommandError ⟨.other, "fly command failed"⟩) = true
    ∧ (FlyIoError.SecretNotSet "A" : FlyIoError) = .SecretNotSet "A"
    ∧ (FlyIoError.SecretNotDeleted "A" : FlyIoError) = .SecretNotDeleted "A" :=
  ⟨(C1_error_kinds_amended FlyIoProvider.new envCmdFail "A" "B").1
      (.CommandError ⟨.other, "fly command failed"⟩) rfl,
   (C1_error_kinds_amended FlyIoProvider.new envCmdFail "A" "B").2.1
      (.SecretNotSet "A") rfl,
   (C1_error_kinds_amended FlyIoProvider.new envCmdFail "A" "B").2.2
      (.SecretNotDeleted "A") rfl⟩

/-- C2 counterexample: in put, a command-execution (spawn) failure of the
underlying external command does not stay a command-execution failure; it is
replaced by SecretNotSet, a different kind. -/
theorem C2_counterexample :
    (execute_fly_command envSpawnFail ["secrets", "set", "A=B"]).1
      = .error (.CommandError ⟨.other, "spawn failed"⟩)
    ∧ (FlyIoProvider.new.put envSpawnFail "A" "B").1 = .error (.SecretNotSet "A")
    ∧ FlyIoError.SecretNotSet "A" ≠ .CommandError ⟨.other, "spawn failed"⟩ :=
  ⟨rfl, rfl, by decide⟩

/-- C2 amended: get surfaces any failure of the underlying external command
to the caller unchanged, while put and delete replace every such failure by
SecretNotSet(name) and SecretNotDeleted(name) respectively; each operation
invokes the external command exactly once per call, so never more than once
(no retry). -/
theorem C2_error_surfacing_amended (p : FlyIoProvider) (env : Env) (n v : String) :
    (∀ e, (execute_fly_command env ["secrets", "list", "--json"]).1 = .error e →
      (p.get env n).1 = .error e)
    ∧ (∀ e, (execute_fly_command env ["secrets", "set", n ++ "=" ++ v]).1 = .error e →
      (p.put env n v).1 = .error (.SecretNotSet n))
    ∧ (∀ e, (execute_fly_command env ["secrets", "unset", n]).1 = .error e →
      (p.delete env n).1 = .error (.SecretNotDeleted n))
    ∧ (p.get env n).2.length = 1
    ∧ (p.put env n v).2.length = 1
    ∧ (p.delete env n).2.length = 1 := by
  refine ⟨fun e h => get_propagates_execute_error p env n e h,
    fun e h => ?_, fun e h => ?_, rfl, rfl, rfl⟩
  · simp [FlyIoProvider.put, h]
  · simp [FlyIoProvider.delete, h]

/-- Witness for C2 amended at a concrete environment whose spawn fails. -/
theorem C2_error_surfacing_amended_witness :
    (FlyIoProvider.new.get envSpawnFail "A").1
      = .error (.CommandError ⟨.other, "spawn failed"⟩)
    ∧ (FlyIoProvider.new.put envSpawnFail "A" "B").1 = .error (.SecretNotSet "A")
    ∧ (FlyIoProvider.new.delete envSpawnFail "A").1 = .error (.SecretNotDeleted "A") :=
  ⟨(C2_error_surfacing_amended FlyIoProvider.new envSpawnFail "A" "B").1
      (.CommandError ⟨.other, "spawn failed"⟩) rfl,
   (C2_error_surfacing_amended FlyIoProvider.new envSpawnFail "A" "B").2.1
      (.CommandError ⟨.other, "spawn failed"⟩) rfl,
   (C2_error_surfacing_amended FlyIoProvider.new envSpawnFail "A" "B").2.2.1
      (.CommandError ⟨.other, "spawn failed"⟩) rfl⟩

/-- C3: when the list command succeeds and its output parses as a JSON
object, get(name) returns the associated string value when the object
contains the key name, and fails with SecretNotFound(name) when it does
not. -/
theorem C3_get_lookup (p : FlyIoProvider) (env : Env) (n : String)
    (s : String) (entries : List (String × Value))
    (hexec : (execute_fly_command env ["secrets", "list", "--json"]).1 = .ok s)
    (hparse : env.jsonParse s = .ok (.obj entries)) :
    (∀ v, entries.lookup n = some (.str v) → (p.get env n).1 = .ok v)
    ∧ (entries.lookup n = none → (p.get env n).1 = .error (.SecretNotFound n)) := by
  constructor
  · intro v hv
    simp [FlyIoProvider.get, hexec, hparse, Value.getKey, hv, Value.as_str]
  · intro hv
    simp [FlyIoProvider.get, hexec, hparse, Value.getKey, hv]

/-- Witness for C3 at a concrete environment whose output parses to the
object mapping A to the string v. -/
theorem C3_get_lookup_witness :
    (FlyIoProvider.new.get envObjStr "A").1 = .ok "v"
    ∧ (FlyIoProvider.new.get envObjStr "B").1 = .error (.SecretNotFound "B") :=
  ⟨(C3_get_lookup FlyIoProvider.new envObjStr "A" "payload"
      [("A", .str "v")] rfl rfl).1 "v" rfl,
   (C3_get_lookup FlyIoProvider.new envObjStr "B" "payload"
      [("A", .str "v")] rfl rfl).2 rfl⟩

/-- C6: if the external command exits with a non-success status, each
operation returns an error and never a success value; conversely, when the
exit status is a success the command-failed error branch is unreachable:
the only error still possible from execute_fly_command is the UTF-8 one. -/
theorem C6_nonsuccess_status_errors (p : FlyIoProvider) (env : Env)
    (n v : String) (out : List Nat) :
    (env.runFly ["secrets", "list", "--json"] = .ran false out →
      ∃ e, (p.get env n).1 = .error e)
    ∧ (env.runFly ["secrets", "set", n ++ "=" ++ v] = .ran false out →
      ∃ e, (p.put env n v).1 = .error e)
    ∧ (env.runFly ["secrets", "unset", n] = .ran false out →
      ∃ e, (p.delete env n).1 = .error e)
    ∧ (∀ args out2 e, env.runFly args = .ran true out2 →
      (execute_fly_command env args).1 = .error e → ∃ u, e = .Utf8Error u) := by
  refine ⟨?_, ?_, ?_, ?_⟩
  · intro hr
    exact ⟨_, get_propagates_execute_error p env n
      (.CommandError ⟨.other, "fly command failed"⟩)
      (by simp [execute_fly_command, hr])⟩
  · intro hr
    exact ⟨.SecretNotSet n, by simp [FlyIoProvider.put, execute_fly_command, hr]⟩
  · intro hr
    exact ⟨.SecretNotDeleted n, by simp [FlyIoProvider.delete, execute_fly_command, hr]⟩
  · intro args out2 e hr hx
    simp only [execute_fly_command] at hx
    cases hu : env.utf8Decode out2 with
    | error u =>
      simp [hr, hu] at hx
      exact ⟨u, hx.symm⟩
    | ok s =>
      simp [hr, hu] at hx

/-- Witness for C6: the three operations at an environment whose command
exits unsuccessfully, and the success-status conjunct at an environment
whose output is invalid UTF-8. -/
theorem C6_nonsuccess_status_errors_witness :
    (∃ e, (FlyIoProvider.new.get envCmdFail "A").1 = .error e)
    ∧ (∃ e, (FlyIoProvider.new.put envCmdFail "A" "B").1 = .error e)
    ∧ (∃ e, (FlyIoProvider.new.delete envCmdFail "A").1 = .error e)
    ∧ (∃ u, (FlyIoError.Utf8Error ⟨0⟩ : FlyIoError) = .Utf8Error u) :=
  ⟨(C6_nonsuccess_status_errors FlyIoProvider.new envCmdFail "A" "B" []).1 rfl,
   (C6_nonsuccess_status_errors FlyIoProvider.new envCmdFail "A" "B" []).2.1 rfl,
   (C6_nonsuccess_status_errors FlyIoProvider.new envCmdFail "A" "B" []).2.2.1 rfl,
   (C6_nonsuccess_status_errors FlyIoProvider.new envBadUtf8 "A" "B" []).2.2.2
     ["x"] [255] (.Utf8Error ⟨0⟩) rfl rfl⟩

/-- Helper: one operation's result depends only on the behaviour of the
environment at that operation's own argument vector (and the two library
functions), not on the provider value. -/
lemma runOp_ext (p₁ p₂ : FlyIoProvider) (env₁ env₂ : Env) (op : OpCall)
    (hrun : env₁.runFly op.argv = env₂.runFly op.argv)
    (hutf : env₁.utf8Decode = env₂.utf8Decode)
    (hjson : env₁.jsonParse = env₂.jsonParse) :
    runOp p₁ env₁ op = runOp p₂ env₂ op := by
  cases op with
  | getOp n =>
    simp only [OpCall.argv] at hrun
    simp [runOp, FlyIoProvider.get, execute_fly_command, hrun, hutf, hjson]
  | putOp n v =>
    simp only [OpCall.argv] at hrun
    simp [runOp, FlyIoProvider.put, execute_fly_command, hrun, hutf, hjson]
  | delOp n =>
    simp only [OpCall.argv] at hrun
    simp [runOp, FlyIoProvider.delete, execute_fly_command, hrun, hutf, hjson]

/-- C7: the provider is stateless.  In any two runs whose final operation is
the same call against external behaviour agreeing at that call (same spawn
result, exit status and standard output, same decoding), the operation
returns the same result, independent of the prior operations of either run
and of the provider values. -/
theorem C7_stateless (p₁ p₂ : FlyIoProvider) (hist₁ hist₂ : List (OpCall × Env))
    (op : OpCall) (env₁ env₂ : Env)
    (hrun : env₁.runFly op.argv = env₂.runFly op.argv)
    (hutf : env₁.utf8Decode = env₂.utf8Decode)
    (hjson : env₁.jsonParse = env₂.jsonParse) :
    (runHistory p₁ (hist₁ ++ [(op, env₁)])).getLast?
      = (runHistory p₂ (hist₂ ++ [(op, env₂)])).getLast?
    ∧ (runHistory p₁ (hist₁ ++ [(op, env₁)])).getLast?
      = some (runOp p₁ env₁ op) := by
  have key : ∀ (p : FlyIoProvider) (hist : List (OpCall × Env)) (env : Env),
      (runHistory p (hist ++ [(op, env)])).getLast? = some (runOp p env op) := by
    intro p hist env
    simp [runHistory, List.getLast?_concat]
  refine ⟨?_, key p₁ hist₁ env₁⟩
  rw [key p₁ hist₁ env₁, key p₂ hist₂ env₂,
    runOp_ext p₁ p₂ env₁ env₂ op hrun hutf hjson]

/-- Environment agreeing with envObjStr on the get argument vector but
behaving differently on every other argument vector. -/
def envVariant : Env :=
  ⟨fun args => if args = ["secrets", "list", "--json"] then .ran true []
    else .spawnErr ⟨.other, "boom"⟩,
   fun _ => .ok "payload", fun _ => .ok (.obj [("A", .str "v")])⟩

/-- Witness for C7: two runs with different histories, different provider
values and different environments that nevertheless agree at the final get
call produce the same final result. -/
theorem C7_stateless_witness :
    (runHistory FlyIoProvider.new
        ([(OpCall.delOp "Z", envCmdFail)] ++ [(OpCall.getOp "A", envObjStr)])).getLast?
      = (runHistory FlyIoProvider.new ([] ++ [(OpCall.getOp "A", envVariant)])).getLast?
    ∧ (runHistory FlyIoProvider.new
        ([(OpCall.delOp "Z", envCmdFail)] ++ [(OpCall.getOp "A", envObjStr)])).getLast?
      = some (runOp FlyIoProvider.new envObjStr (OpCall.getOp "A")) :=
  C7_stateless FlyIoProvider.new FlyIoProvider.new
    [(OpCall.delOp "Z", envCmdFail)] [] (OpCall.getOp "A") envObjStr envVariant
    rfl rfl rfl

/-- C8: when the list command succeeds and its output parses as a JSON
object containing the key name with a non-string value, get(name) returns
success with the empty string rather than any error. -/
theorem C8_nonstring_value_empty (p : FlyIoProvider) (env : Env) (n : String)
    (s : String) (entries : List (String × Value)) (v : Value)
    (hexec : (execute_fly_command env ["secrets", "list", "--json"]).1 = .ok s)
    (hparse : env.jsonParse s = .ok (.obj entries))
    (hlook : entries.lookup n = some v)
    (hstr : v.as_str = none) :
    (p.get env n).1 = .ok "" := by
  simp [FlyIoProvider.get, hexec, hparse, Value.getKey, hlook, hstr]

/-- Witness for C8 at an environment whose output parses to an object
mapping A to the JSON number 42. -/
theorem C8_nonstring_value_empty_witness :
    (FlyIoProvider.new.get envObjNum "A").1 = .ok "" :=
  C8_nonstring_value_empty FlyIoProvider.new envObjNum "A" "payload"
    [("A", .num 42)] (.num 42) rfl rfl rfl rfl

/-- C9: when the list command succeeds but its standard output fails to
parse as JSON, get(name) returns SecretNotFound(name), not a decoding or
command-execution error. -/
theorem C9_parse_failure_not_found (p : FlyIoProvider) (env : Env) (n : String)
    (s : String) (e : JsonError)
    (hexec : (execute_fly_command env ["secrets", "list", "--json"]).1 = .ok s)
    (hparse : env.jsonParse s = .error e) :
    (p.get env n).1 = .error (.SecretNotFound n) := by
  simp [FlyIoProvider.get, hexec, hparse]

/-- Witness for C9 at an environment whose output does not parse as JSON. -/
theorem C9_parse_failure_not_found_witness :
    (FlyIoProvider.new.get envBadJson "A").1 = .error (.SecretNotFound "A") :=
  C9_parse_failure_not_found FlyIoProvider.new envBadJson "A" "notjson"
    ⟨"expected value"⟩ rfl rfl

end Flyio
